import Mathlib

/-!
# Verification of the dildogram real-time hub

A shallow embedding of the WebSocket hub of the dildogram chat backend
(`backend/internal/websocket/hub.go`, `client.go`, `message.go`, the message
service and the message repository), together with proofs and refutations of
the specification's claims about it.

Modelling conventions:
* Go UUIDs become `Nat`; `uuid.Nil` becomes `0` (real users have nonzero ids).
* A Go buffered channel of serialized frames becomes `Chan`: a list of queued
  wire values plus a `closed` flag; a non-blocking send (`select`/`default`)
  on a closed channel panics, on a full channel takes the default branch, as
  in the Go runtime.  `close` of a closed channel panics.
* A Go panic is the `.error` case of `Except Panic _`; the hub and reader
  goroutines install no `recover`, so a panic crashes the loop.
* Go maps become association lists with unique keys (`lookupKey`, `upsert`,
  `eraseKey`); sets become duplicate-free lists.
* Wall-clock timestamps are abstracted to a logical clock in the database
  state; envelope-level `timestamp` fields are omitted from the wire model
  because no claim mentions them.
* The serialized bytes of a frame (`mustMarshal`) are modelled by the frame
  value itself: serialization is injective on distinct frames.
-/

namespace Dildogram

/-- A panic of the Go runtime as observable in the hub and reader loops. -/
inductive Panic
  | sendOnClosed
  | closeOfClosed
  | typeAssert
deriving DecidableEq, Repr

/-- A persisted chat message (`models.Message`).  `sender` is the preloaded
`Sender` association: display name and avatar, `none` when not loaded. -/
structure Message where
  id : Nat
  chatID : Nat
  senderID : Nat
  content : String
  msgType : String
  mediaURL : Option String
  isEdited : Bool
  isDeleted : Bool
  status : String
  createdAt : Nat
  sender : Option (String × String)
deriving DecidableEq, Repr

/-- The persistence collaborator's state: chats, memberships, users
(full name × avatar), messages in insertion order, read marks
`(message id, user id)`, plus id and clock counters for fresh rows. -/
structure DB where
  chats : List Nat
  members : List (Nat × Nat)
  users : List (Nat × String × String)
  messages : List Message
  reads : List (Nat × Nat)
  nextID : Nat
  clock : Nat
deriving DecidableEq, Repr

/-- The payload of a server `message` envelope (`MessagePayload`). -/
structure MessagePayload where
  id : Nat
  chatID : Nat
  senderID : Nat
  senderName : String
  senderAvatar : String
  content : String
  msgType : String
  mediaURL : Option String
  isEdited : Bool
  isDeleted : Bool
  status : String
  createdAt : Nat
deriving DecidableEq, Repr

/-- A serialized server-to-client envelope as it sits in an outbound queue. -/
inductive Wire
  | message (p : MessagePayload)
  | messageRead (messageID userID : Nat)
  | typingStatus (chatID userID : Nat) (userName : String) (isTyping : Bool)
  | userOnline (userID : Nat) (username : String)
  | userOffline (userID : Nat)
  | errorEnv (code msg : String)
deriving DecidableEq, Repr

/-- A session's bounded outbound queue (`Client.send`, a Go channel). -/
structure Chan where
  buf : List Wire
  closed : Bool
deriving DecidableEq, Repr

/-- Capacity of `Client.send` (`make(chan []byte, 256)`). -/
def sendCap : Nat := 256

/-- Non-blocking send (`select { case ch <- v: default: }`): panics if the
channel is closed, returns `false` (default branch) if full. -/
def chanTrySend (c : Chan) (w : Wire) : Except Panic (Chan × Bool) :=
  if c.closed then .error .sendOnClosed
  else if c.buf.length < sendCap then .ok ({ c with buf := c.buf ++ [w] }, true)
  else .ok (c, false)

/-- `close(ch)`: panics if already closed. -/
def chanClose (c : Chan) : Except Panic Chan :=
  if c.closed then .error .closeOfClosed else .ok { c with closed := true }

/-- Per-session mutable state (`websocket.Client`). -/
structure Sess where
  userID : Nat
  username : String
  send : Chan
  subscribed : List Nat
  typing : List Nat
deriving DecidableEq, Repr

/-- An item on the hub's global `broadcast` channel (`broadcastMessage`). -/
structure BMsg where
  message : Wire
  excludeID : Nat
  skipCheck : Bool
deriving DecidableEq, Repr

/-- An item on the hub's `broadcastToChat` channel (`chatBroadcastMessage`). -/
structure CBMsg where
  chatID : Nat
  message : Wire
  excludeID : Nat
  skipCheck : Bool
deriving DecidableEq, Repr

/-- The hub's state: `clients` maps a user id to the session id registered
for it, `clientsByChat` maps a chat id to its subscriber map (user id to
session id), `sessions` is the heap of live session objects keyed by session
id, and the two `pending` lists model the contents of the hub's buffered
broadcast channels. -/
structure Hub where
  clients : List (Nat × Nat)
  clientsByChat : List (Nat × List (Nat × Nat))
  sessions : List (Nat × Sess)
  pendingBroadcast : List BMsg
  pendingChatBroadcast : List CBMsg
deriving DecidableEq, Repr

/-- `uuid.Nil` under the `Nat` encoding of UUIDs. -/
def uuidNil : Nat := 0

/-- Association-list lookup by key. -/
def lookupKey (k : Nat) : List (Nat × α) → Option α
  | [] => none
  | (k', v) :: rest => if k' = k then some v else lookupKey k rest

/-- Association-list insert-or-replace (`m[k] = v` on a Go map). -/
def upsert (k : Nat) (v : α) : List (Nat × α) → List (Nat × α)
  | [] => [(k, v)]
  | (k', v') :: rest => if k' = k then (k, v) :: rest else (k', v') :: upsert k v rest

/-- Association-list key removal (`delete(m, k)` on a Go map). -/
def eraseKey (k : Nat) (m : List (Nat × α)) : List (Nat × α) :=
  m.filter (fun e => e.1 ≠ k)

/-- The empty hub (`NewHub`). -/
def mkHub : Hub :=
  { clients := [], clientsByChat := [], sessions := [],
    pendingBroadcast := [], pendingChatBroadcast := [] }

/-- `NewClient`: allocate a fresh session object with an open, empty
outbound queue and empty subscription and typing sets. -/
def newClient (h : Hub) (sid uid : Nat) (uname : String) : Hub :=
  let s : Sess :=
    { userID := uid, username := uname,
      send := { buf := [], closed := false },
      subscribed := [], typing := [] }
  { h with sessions := upsert sid s h.sessions }

/-- Enqueue a `user_online` event on the global broadcast channel
(`Hub.broadcastUserOnline`): `excludeID` is the user, `skipCheck` false. -/
def broadcastUserOnline (h : Hub) (uid : Nat) (uname : String) : Hub :=
  { h with pendingBroadcast :=
      h.pendingBroadcast ++ [⟨Wire.userOnline uid uname, uid, false⟩] }

/-- Enqueue a `user_offline` event on the global broadcast channel
(`Hub.broadcastUserOffline`). -/
def broadcastUserOffline (h : Hub) (uid : Nat) : Hub :=
  { h with pendingBroadcast :=
      h.pendingBroadcast ++ [⟨Wire.userOffline uid, uid, false⟩] }

/-- `Hub.registerClient`: if a prior session is registered for the user,
close its outbound queue; then install the new session under the user id,
and emit `user_online`.  The prior session is not touched in
`clientsByChat`.  (The best-effort persistence `SetOnline` call is
elided.) -/
def registerClient (h : Hub) (sid : Nat) : Except Panic Hub :=
  match lookupKey sid h.sessions with
  | none => .ok h
  | some s =>
    let step : Except Panic (List (Nat × Sess)) :=
      match lookupKey s.userID h.clients with
      | none => .ok h.sessions
      | some oldSid =>
        match lookupKey oldSid h.sessions with
        | none => .ok h.sessions
        | some olds =>
          (chanClose olds.send).map fun c =>
            upsert oldSid { olds with send := c } h.sessions
    step.map fun sessions =>
      broadcastUserOnline
        { h with sessions := sessions, clients := upsert s.userID sid h.clients }
        s.userID s.username

/-- `Hub.unsubscribeFromChat`: drop the user's entry from the chat's
subscriber map, deleting the chat key if the map becomes empty, and remove
the chat from the session's own `subscribed` and `typing` sets. -/
def unsubscribeFromChat (h : Hub) (sid cid : Nat) : Hub :=
  match lookupKey sid h.sessions with
  | none => h
  | some s =>
    let byChat :=
      match lookupKey cid h.clientsByChat with
      | none => h.clientsByChat
      | some m =>
        let m2 := eraseKey s.userID m
        if m2.isEmpty then eraseKey cid h.clientsByChat
        else upsert cid m2 h.clientsByChat
    { h with clientsByChat := byChat,
             sessions := upsert sid
               { s with subscribed := s.subscribed.filter (· ≠ cid),
                        typing := s.typing.filter (· ≠ cid) } h.sessions }

/-- `Hub.UnsubscribeFromChat` (public wrapper; the mutex is implicit in the
sequential model). -/
def UnsubscribeFromChat (h : Hub) (sid cid : Nat) : Hub :=
  unsubscribeFromChat h sid cid

/-- `Hub.unregisterClient`: if any session is registered under this
session's user id (the code does not compare identities), delete that map
entry, close this session's queue (a second close panics), unsubscribe this
session from all its chats, and emit `user_offline`. -/
def unregisterClient (h : Hub) (sid : Nat) : Except Panic Hub :=
  match lookupKey sid h.sessions with
  | none => .ok h
  | some s =>
    match lookupKey s.userID h.clients with
    | none => .ok h
    | some _ =>
      (chanClose s.send).map fun c =>
        let h1 := { h with clients := eraseKey s.userID h.clients,
                           sessions := upsert sid { s with send := c } h.sessions }
        let h2 := s.subscribed.foldl (fun acc cid => unsubscribeFromChat acc sid cid) h1
        broadcastUserOffline h2 s.userID

/-- The body of the fan-out loops in `handleBroadcast` and
`handleBroadcastToChat`, applied to one target entry `(user id, session
id)`: if the target is eligible, try a non-blocking enqueue; on the default
branch (full queue) close the target's queue and delete its user id from
`clients` — but not from `clientsByChat`. -/
def broadcastStep (msg : BMsg) (h : Hub) (e : Nat × Nat) : Except Panic Hub :=
  match lookupKey e.2 h.sessions with
  | none => .ok h
  | some s =>
    if msg.skipCheck || s.userID ≠ msg.excludeID then
      match chanTrySend s.send msg.message with
      | .error p => .error p
      | .ok (c, true) =>
        .ok { h with sessions := upsert e.2 { s with send := c } h.sessions }
      | .ok (_, false) =>
        (chanClose s.send).map fun c =>
          { h with sessions := upsert e.2 { s with send := c } h.sessions,
                   clients := eraseKey s.userID h.clients }
    else .ok h

/-- Run the fan-out body over a list of target entries, threading state. -/
def fanOut (msg : BMsg) : Hub → List (Nat × Nat) → Except Panic Hub
  | h, [] => .ok h
  | h, e :: es => do fanOut msg (← broadcastStep msg h e) es

/-- `Hub.handleBroadcast`: fan out over every entry of `clients`. -/
def handleBroadcast (h : Hub) (msg : BMsg) : Except Panic Hub :=
  fanOut msg h h.clients

/-- `Hub.handleBroadcastToChat`: fan out over the chat's subscriber map,
if present. -/
def handleBroadcastToChat (h : Hub) (msg : CBMsg) : Except Panic Hub :=
  match lookupKey msg.chatID h.clientsByChat with
  | none => .ok h
  | some targets => fanOut ⟨msg.message, msg.excludeID, msg.skipCheck⟩ h targets

/-! ## Persistence collaborator (message repository and services) -/

/-- The chat's non-deleted messages in storage order
(`WHERE chat_id = ? AND is_deleted = false`). -/
def chatNonDeleted (db : DB) (cid : Nat) : List Message :=
  db.messages.filter (fun m => m.chatID = cid && !m.isDeleted)

/-- Insert a message into a list sorted by `created_at` descending. -/
def insertByCreatedDesc (m : Message) : List Message → List Message
  | [] => [m]
  | x :: xs =>
    if x.createdAt ≤ m.createdAt then m :: x :: xs
    else x :: insertByCreatedDesc m xs

/-- `ORDER BY created_at DESC` as an insertion sort. -/
def sortByCreatedDesc : List Message → List Message
  | [] => []
  | x :: xs => insertByCreatedDesc x (sortByCreatedDesc xs)

/-- `messageRepository.GetChatMessages`: non-deleted messages of the chat,
newest first, `OFFSET`/`LIMIT` window, then reversed in Go for
chronological display. -/
def GetChatMessages (db : DB) (cid limit offset : Nat) : List Message :=
  (((sortByCreatedDesc (chatNonDeleted db cid)).drop offset).take limit).reverse

/-- `messageRepository.GetByID`: first message with the id, `nil` when
absent. -/
def GetByID (db : DB) (mid : Nat) : Option Message :=
  db.messages.find? (fun m => m.id = mid)

/-- `messageRepository.MarkChatAsRead`: insert a read mark `(message id,
user id)` for every non-deleted message of the chat sent by another user,
skipping marks that already exist (`ON CONFLICT DO NOTHING`). -/
def MarkChatAsRead (db : DB) (cid uid : Nat) : DB :=
  let msgs := db.messages.filter
    (fun m => m.chatID = cid && m.senderID ≠ uid && !m.isDeleted)
  let newReads := msgs.foldl
    (fun rs m => if (m.id, uid) ∈ rs then rs else rs ++ [(m.id, uid)]) db.reads
  { db with reads := newReads }

/-- `chatRepository.IsMember`. -/
def IsMember (db : DB) (cid uid : Nat) : Bool :=
  (cid, uid) ∈ db.members

/-- `ChatService.GetChat` reduced to its authorization outcome: the chat
exists and the user is a member. -/
def GetChat (db : DB) (cid uid : Nat) : Bool :=
  cid ∈ db.chats && IsMember db cid uid

/-- `MessageService.SendMessage`: reject empty text content and
non-members, otherwise persist a fresh message row (id and creation time
from the database counters, sender association preloaded from the user
table) and return it. -/
def SendMessage (db : DB) (cid senderID : Nat) (content : String)
    (mtype : String) (mediaURL : Option String) (replyTo : Option Nat) :
    Option (DB × Message) :=
  if content = "" ∧ mtype = "text" then none
  else if !IsMember db cid senderID then none
  else
    let _ := replyTo
    let m : Message :=
      { id := db.nextID, chatID := cid, senderID := senderID,
        content := content, msgType := mtype, mediaURL := mediaURL,
        isEdited := false, isDeleted := false, status := "sent",
        createdAt := db.clock,
        sender := lookupKey senderID db.users }
    some ({ db with messages := db.messages ++ [m],
                    nextID := db.nextID + 1, clock := db.clock + 1 }, m)

/-- `MessageService.MarkAsRead`: load the message; do nothing when the
reader is its sender; otherwise mark the whole chat as read.  `dbFail`
injects a transient persistence failure of the chat-wide write (the Go
call can return a database error); the returned flag is the success of the
call. -/
def MarkAsRead (db : DB) (mid uid : Nat) (dbFail : Bool) : DB × Bool :=
  match GetByID db mid with
  | none => (db, false)
  | some m =>
    if m.senderID = uid then (db, true)
    else if dbFail then (db, false)
    else (MarkChatAsRead db m.chatID uid, true)

/-- `MessageService.MarkChatAsRead`: membership check, then the chat-wide
repository write. -/
def MarkChatAsReadSvc (db : DB) (cid uid : Nat) (dbFail : Bool) : DB × Bool :=
  if !IsMember db cid uid then (db, false)
  else if dbFail then (db, false)
  else (MarkChatAsRead db cid uid, true)

/-! ## Client-side operations -/

/-- `Client.Send`: non-blocking enqueue of the serialized frame onto the
session's own queue; when the queue is full the client closes its own
channel (and is not removed from any hub map). -/
def clientSend (h : Hub) (sid : Nat) (w : Wire) : Except Panic Hub :=
  match lookupKey sid h.sessions with
  | none => .ok h
  | some s =>
    match chanTrySend s.send w with
    | .error p => .error p
    | .ok (c, true) =>
      .ok { h with sessions := upsert sid { s with send := c } h.sessions }
    | .ok (_, false) =>
      (chanClose s.send).map fun c =>
        { h with sessions := upsert sid { s with send := c } h.sessions }

/-- `Client.SendError`: an `error` envelope to this session only. -/
def SendError (h : Hub) (sid : Nat) (code msg : String) : Except Panic Hub :=
  clientSend h sid (Wire.errorEnv code msg)

/-- `Client.Subscribe`: add the chat to the session's own set. -/
def insertSub (cid : Nat) (l : List Nat) : List Nat :=
  if cid ∈ l then l else l ++ [cid]

/-- `Hub.BroadcastToChat`: enqueue on the chat-broadcast channel with
`excludeID: uuid.Nil` and `skipCheck: !excludeSelf` — the originator's id
is not part of the enqueued item. -/
def BroadcastToChat (h : Hub) (cid : Nat) (w : Wire) (excludeSelf : Bool) : Hub :=
  { h with pendingChatBroadcast :=
      h.pendingChatBroadcast ++ [⟨cid, w, uuidNil, !excludeSelf⟩] }

/-- The `message` envelope built from a persisted message for the
subscribe-time replay (`sendUnreadMessages` loop body): sender name and
avatar from the preloaded association, empty when absent. -/
def replayWire (m : Message) : Wire :=
  Wire.message
    { id := m.id, chatID := m.chatID, senderID := m.senderID,
      senderName := (m.sender.map Prod.fst).getD "",
      senderAvatar := (m.sender.map Prod.snd).getD "",
      content := m.content, msgType := m.msgType, mediaURL := m.mediaURL,
      isEdited := m.isEdited, isDeleted := m.isDeleted, status := m.status,
      createdAt := m.createdAt }

/-- Send a list of frames to one session via `Client.Send`, in order. -/
def sendWires (h : Hub) (sid : Nat) : List Wire → Except Panic Hub
  | [] => .ok h
  | w :: ws => do sendWires (← clientSend h sid w) sid ws

/-- `Hub.sendUnreadMessages`: fetch the last 50 non-deleted messages and
send each to this session only. -/
def sendUnreadMessages (db : DB) (h : Hub) (sid cid : Nat) : Except Panic Hub :=
  sendWires h sid ((GetChatMessages db cid 50 0).map replayWire)

/-- `Hub.SubscribeToChat`: authorize via `ChatService.GetChat` (the `false`
result is the error return, on which the caller sends an `error`
envelope); on success insert the session into the chat's subscriber map,
add the chat to the session's set, and replay recent history. -/
def SubscribeToChat (db : DB) (h : Hub) (sid cid : Nat) :
    Except Panic (Bool × Hub) :=
  match lookupKey sid h.sessions with
  | none => .ok (false, h)
  | some s =>
    if !GetChat db cid s.userID then .ok (false, h)
    else
      let m := (lookupKey cid h.clientsByChat).getD []
      let h1 := { h with
        clientsByChat := upsert cid (upsert s.userID sid m) h.clientsByChat,
        sessions := upsert sid
          { s with subscribed := insertSub cid s.subscribed } h.sessions }
      (sendUnreadMessages db h1 sid cid).map ((true, ·))

/-! ## Inbound envelopes and intent handlers

`WSMessage.Payload` is declared `interface{}` in Go.  When `Client.Read`
decodes a frame with `json.Unmarshal` into the envelope, the payload field
holds a generic decoded value (`map[string]interface{}`, string, number, or
`nil`) — never a `json.RawMessage`.  Every intent handler nevertheless
begins with the unchecked type assertion `msg.Payload.(json.RawMessage)`,
which panics on any value of a different dynamic type.  `PayloadVal.raw`
models a payload that actually is a `json.RawMessage` (with the
handler-specific second-stage parse result inlined); `PayloadVal.decoded`
models the generic value the reader produces. -/

/-- Second-stage parse results of a raw payload, per intent. -/
structure SendMessagePayload where
  chatID : Option Nat
  content : String
  msgType : String
  mediaURL : Option String
  replyToID : Option (Option Nat)
deriving DecidableEq, Repr

/-- A `json.RawMessage` payload, tagged by which payload schema it parses
into (`badJson` fails every schema). -/
inductive RawPayload
  | sendMsg (p : SendMessagePayload)
  | readMsg (messageID : Option Nat)
  | readChat (chatID : Option Nat)
  | typingP (chatID : Option Nat)
  | subscribeP (chatID : Option Nat)
  | badJson
deriving DecidableEq, Repr

/-- The dynamic value stored in the envelope's `Payload interface{}`. -/
inductive PayloadVal
  | raw (r : RawPayload)
  | decoded
deriving DecidableEq, Repr

/-- Client-to-server envelope types (`MessageType` constants). -/
inductive InType
  | sendMessage
  | readMessage
  | readChat
  | typingStart
  | typingStop
  | subscribeChat
  | unsubscribeChat
  | unknown
deriving DecidableEq, Repr

/-- A decoded inbound envelope (`WSMessage`). -/
structure WSMessage where
  type : InType
  payload : PayloadVal
deriving DecidableEq, Repr

/-- `msg.Payload.(json.RawMessage)`: an unchecked Go type assertion —
panics unless the dynamic type is `json.RawMessage`. -/
def assertRaw : PayloadVal → Except Panic RawPayload
  | .raw r => .ok r
  | .decoded => .error .typeAssert

/-- `Client.SetTyping`. -/
def SetTyping (h : Hub) (sid cid : Nat) (isTyping : Bool) : Hub :=
  match lookupKey sid h.sessions with
  | none => h
  | some s =>
    let s' := if isTyping then { s with typing := insertSub cid s.typing }
              else { s with typing := s.typing.filter (· ≠ cid) }
    { h with sessions := upsert sid s' h.sessions }

/-- `Hub.handleSendMessage`: assert the raw payload, parse it, validate the
chat id, persist via `MessageService.SendMessage`, echo the built `message`
envelope to the originator, then enqueue the chat broadcast (which, in the
code, carries `excludeID: uuid.Nil`). -/
def handleSendMessage (db : DB) (h : Hub) (sid : Nat) (pv : PayloadVal) :
    Except Panic (DB × Hub) := do
  let r ← assertRaw pv
  match lookupKey sid h.sessions with
  | none => .ok (db, h)
  | some s =>
    match r with
    | .sendMsg p =>
      match p.chatID with
      | none => (SendError h sid "invalid_chat_id" "Invalid chat ID").map (db, ·)
      | some cid =>
        let mtype := if p.msgType = "" then "text" else p.msgType
        match SendMessage db cid s.userID p.content mtype p.mediaURL
            (p.replyToID.bind id) with
        | none => (SendError h sid "send_failed" "send failed").map (db, ·)
        | some (db', sentMsg) =>
          let (senderName, senderAvatar) :=
            (lookupKey s.userID db'.users).getD (s.username, "")
          let response := Wire.message
            { id := sentMsg.id, chatID := sentMsg.chatID,
              senderID := sentMsg.senderID, senderName := senderName,
              senderAvatar := senderAvatar, content := sentMsg.content,
              msgType := sentMsg.msgType, mediaURL := sentMsg.mediaURL,
              isEdited := sentMsg.isEdited, isDeleted := sentMsg.isDeleted,
              status := sentMsg.status, createdAt := sentMsg.createdAt }
          (clientSend h sid response).map fun h' =>
            (db', BroadcastToChat h' cid response true)
    | _ => (SendError h sid "invalid_payload" "Failed to parse payload").map (db, ·)

/-- `Hub.handleReadMessage`: assert and parse the payload, load the
message, call `MessageService.MarkAsRead` discarding its error, and
broadcast `message_read` to the message's chat with `excludeSelf = false`.
`dbFail` injects a persistence failure into the discarded call. -/
def handleReadMessage (db : DB) (h : Hub) (sid : Nat) (pv : PayloadVal)
    (dbFail : Bool) : Except Panic (DB × Hub) := do
  let r ← assertRaw pv
  match lookupKey sid h.sessions with
  | none => .ok (db, h)
  | some s =>
    match r with
    | .readMsg mid? =>
      match mid? with
      | none => (SendError h sid "invalid_message_id" "Invalid message ID").map (db, ·)
      | some mid =>
        match GetByID db mid with
        | none => (SendError h sid "message_not_found" "Message not found").map (db, ·)
        | some message =>
          let (db', _) := MarkAsRead db mid s.userID dbFail
          let response := Wire.messageRead mid s.userID
          .ok (db', BroadcastToChat h message.chatID response false)
    | _ => (SendError h sid "invalid_payload" "Failed to parse payload").map (db, ·)

/-- `Hub.handleReadChat`: parse, then `MessageService.MarkChatAsRead` with
the error discarded; no broadcast. -/
def handleReadChat (db : DB) (h : Hub) (sid : Nat) (pv : PayloadVal)
    (dbFail : Bool) : Except Panic (DB × Hub) := do
  let r ← assertRaw pv
  match lookupKey sid h.sessions with
  | none => .ok (db, h)
  | some s =>
    match r with
    | .readChat cid? =>
      match cid? with
      | none => (SendError h sid "invalid_chat_id" "Invalid chat ID").map (db, ·)
      | some cid =>
        let (db', _) := MarkChatAsReadSvc db cid s.userID dbFail
        .ok (db', h)
    | _ => (SendError h sid "invalid_payload" "Failed to parse payload").map (db, ·)

/-- `Hub.handleTyping`: parse, update the session's typing flag, broadcast
the typing status to the chat (again with `excludeID: uuid.Nil`). -/
def handleTyping (db : DB) (h : Hub) (sid : Nat) (pv : PayloadVal)
    (isTyping : Bool) : Except Panic (DB × Hub) := do
  let r ← assertRaw pv
  match lookupKey sid h.sessions with
  | none => .ok (db, h)
  | some s =>
    match r with
    | .typingP cid? =>
      match cid? with
      | none => (SendError h sid "invalid_chat_id" "Invalid chat ID").map (db, ·)
      | some cid =>
        let h1 := SetTyping h sid cid isTyping
        let w := Wire.typingStatus cid s.userID s.username isTyping
        .ok (db, BroadcastToChat h1 cid w true)
    | _ => (SendError h sid "invalid_payload" "Failed to parse payload").map (db, ·)

/-- `Hub.handleSubscribeChat`. -/
def handleSubscribeChat (db : DB) (h : Hub) (sid : Nat) (pv : PayloadVal) :
    Except Panic (DB × Hub) := do
  let r ← assertRaw pv
  match r with
  | .subscribeP cid? =>
    match cid? with
    | none => (SendError h sid "invalid_chat_id" "Invalid chat ID").map (db, ·)
    | some cid => do
      let (success, h') ← SubscribeToChat db h sid cid
      if success then .ok (db, h')
      else (SendError h' sid "subscribe_failed" "subscribe failed").map (db, ·)
  | _ => (SendError h sid "invalid_payload" "Failed to parse payload").map (db, ·)

/-- `Hub.handleUnsubscribeChat`. -/
def handleUnsubscribeChat (db : DB) (h : Hub) (sid : Nat) (pv : PayloadVal) :
    Except Panic (DB × Hub) := do
  let r ← assertRaw pv
  match r with
  | .subscribeP cid? =>
    match cid? with
    | none => (SendError h sid "invalid_chat_id" "Invalid chat ID").map (db, ·)
    | some cid => .ok (db, UnsubscribeFromChat h sid cid)
  | _ => (SendError h sid "invalid_payload" "Failed to parse payload").map (db, ·)

/-- `Hub.handleMessage`: the dispatch switch on the envelope type, run on
the reader task.  Unknown types get an `error` envelope. -/
def handleMessage (db : DB) (h : Hub) (sid : Nat) (msg : WSMessage)
    (dbFail : Bool) : Except Panic (DB × Hub) :=
  match msg.type with
  | .sendMessage => handleSendMessage db h sid msg.payload
  | .readMessage => handleReadMessage db h sid msg.payload dbFail
  | .readChat => handleReadChat db h sid msg.payload dbFail
  | .typingStart => handleTyping db h sid msg.payload true
  | .typingStop => handleTyping db h sid msg.payload false
  | .subscribeChat => handleSubscribeChat db h sid msg.payload
  | .unsubscribeChat => handleUnsubscribeChat db h sid msg.payload
  | .unknown => (SendError h sid "unknown_type" "Unknown message type").map (db, ·)

/-! ## Hub loop channel draining and reader shutdown -/

/-- Process a FIFO of global broadcast items through `handleBroadcast`. -/
def processBroadcasts (h : Hub) : List BMsg → Except Panic Hub
  | [] => .ok h
  | b :: bs => do processBroadcasts (← handleBroadcast h b) bs

/-- Let the hub loop consume everything currently on its global broadcast
channel. -/
def drainBroadcasts (h : Hub) : Except Panic Hub :=
  processBroadcasts { h with pendingBroadcast := [] } h.pendingBroadcast

/-- Process a FIFO of chat broadcast items through
`handleBroadcastToChat`. -/
def processChatBroadcasts (h : Hub) : List CBMsg → Except Panic Hub
  | [] => .ok h
  | b :: bs => do processChatBroadcasts (← handleBroadcastToChat h b) bs

/-- Let the hub loop consume everything currently on its chat broadcast
channel. -/
def drainChatBroadcasts (h : Hub) : Except Panic Hub :=
  processChatBroadcasts { h with pendingChatBroadcast := [] } h.pendingChatBroadcast

/-- The deferred cleanup of `Client.Read`: hand the session to
`Hub.Unregister` (processed by the hub loop as `unregisterClient`), then
unconditionally enqueue a second `user_offline` via
`Hub.broadcastUserOffline`. -/
def readerExitCleanup (h : Hub) (sid : Nat) : Except Panic Hub :=
  match lookupKey sid h.sessions with
  | none => .ok h
  | some s => (unregisterClient h sid).map fun h' =>
      broadcastUserOffline h' s.userID

/-- Count the `message` envelopes in a queue. -/
def countMessages (ws : List Wire) : Nat :=
  (ws.filter fun w => match w with | .message _ => true | _ => false).length

/-- Count the `user_offline` envelopes in a queue. -/
def countUserOffline (ws : List Wire) : Nat :=
  (ws.filter fun w => match w with | .userOffline _ => true | _ => false).length

/-- Project the hub out of a non-panicking run. -/
def okHub : Except Panic Hub → Option Hub
  | .ok h => some h
  | .error _ => none

/-- Project the panic out of a run that crashed. -/
def panicOf : Except Panic α → Option Panic
  | .ok _ => none
  | .error p => some p

/-! ## Concrete executions

Small end-to-end runs of the model used as witnesses and counterexamples.
`dbTwoMembers` is a store holding one chat (id 7) whose members are users 1
and 2 and no messages. -/

def dbTwoMembers : DB :=
  { chats := [7], members := [(7, 1), (7, 2)], users := [], messages := [],
    reads := [], nextID := 100, clock := 10 }

/-- Users 1 ("alice", session 1) and 2 ("bob", session 2) connect and
subscribe to chat 7; alice sends `send_message` with content "hi"; the hub
loop then drains the chat-broadcast channel. -/
def sendMessageRun : Except Panic Hub := do
  let h := newClient mkHub 1 1 "alice"
  let h ← registerClient h 1
  let (_, h) ← SubscribeToChat dbTwoMembers h 1 7
  let h := newClient h 2 2 "bob"
  let h ← registerClient h 2
  let (_, h) ← SubscribeToChat dbTwoMembers h 2 7
  let (_, h) ← handleSendMessage dbTwoMembers h 1
    (.raw (.sendMsg ⟨some 7, "hi", "", none, none⟩))
  drainChatBroadcasts h

/-- Alice (session 1) connects and subscribes to chat 7, then logs in again
from a second device (session 2, same user id 1), which evicts session 1;
afterwards the hub loop processes a chat broadcast for chat 7. -/
def duplicateLoginThenChatBroadcast : Except Panic Hub := do
  let h := newClient mkHub 1 1 "alice"
  let h ← registerClient h 1
  let (_, h) ← SubscribeToChat dbTwoMembers h 1 7
  let h := newClient h 2 1 "alice"
  let h ← registerClient h 2
  handleBroadcastToChat h ⟨7, Wire.userOnline 9 "x", uuidNil, true⟩

/-- The state just before the duplicate login: alice's session 1 is
registered and subscribed to chat 7, and the second-device session 2 for
the same user has been allocated but not yet registered. -/
def duplicateLoginState0 : Except Panic Hub := do
  let h := newClient mkHub 1 1 "alice"
  let h ← registerClient h 1
  let (_, h) ← SubscribeToChat dbTwoMembers h 1 7
  pure (newClient h 2 1 "alice")

/-- A session whose outbound queue is filled to capacity. -/
def fullQueueSess : Sess :=
  { userID := 1, username := "alice",
    send := { buf := List.replicate 256 (Wire.userOnline 9 "x"), closed := false },
    subscribed := [7], typing := [] }

/-- A hub holding only `fullQueueSess`, registered and subscribed to
chat 7. -/
def fullQueueHub : Hub :=
  { clients := [(1, 1)], clientsByChat := [(7, [(1, 1)])],
    sessions := [(1, fullQueueSess)],
    pendingBroadcast := [], pendingChatBroadcast := [] }

/-- The state right after the duplicate login of
`duplicateLoginThenChatBroadcast`, before any further broadcast. -/
def duplicateLoginState : Except Panic Hub := do
  let h := newClient mkHub 1 1 "alice"
  let h ← registerClient h 1
  let (_, h) ← SubscribeToChat dbTwoMembers h 1 7
  let h := newClient h 2 1 "alice"
  registerClient h 2

/-- Duplicate login of user 1 (sessions 1 then 2), after which the evicted
session 1's reader exits and the hub loop processes its deregistration. -/
def deregisterEvictedRun : Except Panic Hub := do
  let h := newClient mkHub 1 1 "alice"
  let h ← registerClient h 1
  let h := newClient h 2 1 "alice"
  let h ← registerClient h 2
  unregisterClient h 1

/-- `n` successive global broadcasts processed by the hub loop. -/
def repeatBroadcast : Nat → Hub → Except Panic Hub
  | 0, h => .ok h
  | n + 1, h => do repeatBroadcast n (← handleBroadcast h ⟨Wire.userOnline 9 "x", 9, true⟩)

/-- Alice (session 1) connects and subscribes to chat 7; 256 global
broadcasts fill her outbound queue to capacity; then the hub loop processes
one chat broadcast for chat 7, whose enqueue would block. -/
def overflowEvictionRun : Except Panic Hub := do
  let h := newClient mkHub 1 1 "alice"
  let h ← registerClient h 1
  let (_, h) ← SubscribeToChat dbTwoMembers h 1 7
  let h ← repeatBroadcast 256 h
  handleBroadcastToChat h ⟨7, Wire.userOnline 9 "x", uuidNil, true⟩

/-- Bob (user 2) is connected; alice (user 1) connects and then her reader
exits (disconnect); the hub loop then drains the global broadcast channel. -/
def disconnectRun : Except Panic Hub := do
  let h := newClient mkHub 2 2 "bob"
  let h ← registerClient h 2
  let h := newClient h 1 1 "alice"
  let h ← registerClient h 1
  let h ← readerExitCleanup h 1
  drainBroadcasts h

/-- Alice (session 1) is registered; the reader decodes a syntactically
valid `send_message` envelope, whose payload is therefore a generic decoded
JSON value, and dispatches it. -/
def dispatchDecodedRun : Except Panic (DB × Hub) := do
  let h := newClient mkHub 1 1 "alice"
  let h ← registerClient h 1
  handleMessage dbTwoMembers h 1 ⟨.sendMessage, .decoded⟩ false

/-- A store with one chat (id 7, member: user 1) already holding one
message from user 2. -/
def mSolo : Message :=
  { id := 50, chatID := 7, senderID := 2, content := "yo", msgType := "text",
    mediaURL := none, isEdited := false, isDeleted := false, status := "sent",
    createdAt := 5, sender := none }

def dbOneMessage : DB :=
  { chats := [7], members := [(7, 1)], users := [], messages := [mSolo],
    reads := [], nextID := 51, clock := 6 }

/-- Alice (session 1) connects and subscribes once to chat 7. -/
def subscribeOnceRun : Except Panic Hub := do
  let h := newClient mkHub 1 1 "alice"
  let h ← registerClient h 1
  let (_, h) ← SubscribeToChat dbOneMessage h 1 7
  pure h

/-- Alice subscribes a second time to the same chat. -/
def subscribeTwiceRun : Except Panic Hub := do
  let h ← subscribeOnceRun
  let (_, h) ← SubscribeToChat dbOneMessage h 1 7
  pure h

/-! ## General lemmas about the map operations -/

theorem lookupKey_upsert_self (k : Nat) (v : α) (m : List (Nat × α)) :
    lookupKey k (upsert k v m) = some v := by
  induction m with
  | nil => simp [upsert, lookupKey]
  | cons e rest ih =>
    obtain ⟨k', v'⟩ := e
    by_cases hk : k' = k
    · simp [upsert, hk, lookupKey]
    · simp [upsert, hk, lookupKey, ih]

theorem lookupKey_upsert_ne (k j : Nat) (v : α) (m : List (Nat × α))
    (h : j ≠ k) : lookupKey j (upsert k v m) = lookupKey j m := by
  have hkj : k ≠ j := Ne.symm h
  induction m with
  | nil => simp [upsert, lookupKey, hkj]
  | cons e rest ih =>
    obtain ⟨k', v'⟩ := e
    by_cases hk : k' = k
    · subst hk
      simp [upsert, lookupKey, hkj]
    · simp [upsert, hk, lookupKey, ih]

theorem upsert_upsert (k : Nat) (v w : α) (m : List (Nat × α)) :
    upsert k v (upsert k w m) = upsert k v m := by
  induction m with
  | nil => simp [upsert]
  | cons e rest ih =>
    obtain ⟨k', v'⟩ := e
    by_cases hk : k' = k
    · simp [upsert, hk]
    · simp [upsert, hk, ih]

theorem upsert_eq_self (k : Nat) (v : α) (m : List (Nat × α))
    (h : lookupKey k m = some v) : upsert k v m = m := by
  induction m with
  | nil => simp [lookupKey] at h
  | cons e rest ih =>
    obtain ⟨k', v'⟩ := e
    by_cases hk : k' = k
    · simp [lookupKey, hk] at h
      simp [upsert, hk, h]
    · simp [lookupKey, hk] at h
      simp [upsert, hk, ih h]

theorem eraseKey_eraseKey (k : Nat) (m : List (Nat × α)) :
    eraseKey k (eraseKey k m) = eraseKey k m := by
  simp [eraseKey, List.filter_filter]

theorem lookupKey_eraseKey_self (k : Nat) (m : List (Nat × α)) :
    lookupKey k (eraseKey k m) = none := by
  induction m with
  | nil => simp [eraseKey, lookupKey]
  | cons e rest ih =>
    obtain ⟨k', v'⟩ := e
    by_cases hk : k' = k
    · simpa [eraseKey, hk] using ih
    · simpa [eraseKey, List.filter_cons, hk, lookupKey] using ih

theorem eraseKey_idem_of_erased (k : Nat) (m : List (Nat × α)) :
    eraseKey k (eraseKey k m) = eraseKey k m :=
  eraseKey_eraseKey k m

/-! ## Lemmas about the history window and the replay loop -/

theorem insertByCreatedDesc_append (m : Message) (l : List Message)
    (h : ∀ x ∈ l, m.createdAt < x.createdAt) :
    insertByCreatedDesc m l = l ++ [m] := by
  induction l with
  | nil => simp [insertByCreatedDesc]
  | cons x xs ih =>
    have hx := h x (by simp)
    have hle : ¬ x.createdAt ≤ m.createdAt := by omega
    simp [insertByCreatedDesc, hle, ih (fun y hy => h y (by simp [hy]))]

/-- `ORDER BY created_at DESC` of a list already in strictly ascending
creation order is its reverse. -/
theorem sortByCreatedDesc_of_ascending (l : List Message)
    (h : l.Pairwise (fun a b => a.createdAt < b.createdAt)) :
    sortByCreatedDesc l = l.reverse := by
  induction l with
  | nil => simp [sortByCreatedDesc]
  | cons x xs ih =>
    rw [List.pairwise_cons] at h
    rw [sortByCreatedDesc, ih h.2,
      insertByCreatedDesc_append x _ (fun y hy => h.1 y (List.mem_reverse.mp hy)),
      List.reverse_cons]

/-- For a chat whose stored non-deleted messages are in strictly ascending
creation order, the repository window is exactly the last `limit` of them,
oldest first. -/
theorem GetChatMessages_eq_rtake (db : DB) (cid limit : Nat)
    (hchron : (chatNonDeleted db cid).Pairwise
      (fun a b => a.createdAt < b.createdAt)) :
    GetChatMessages db cid limit 0 = (chatNonDeleted db cid).rtake limit := by
  rw [GetChatMessages, sortByCreatedDesc_of_ascending _ hchron, List.drop_zero,
    List.rtake_eq_reverse_take_reverse]

/-- Replace one session object in the hub's heap. -/
def withSess (h : Hub) (sid : Nat) (s : Sess) : Hub :=
  { h with sessions := upsert sid s h.sessions }

/-- A session with `ws` appended to its (open) outbound queue. -/
def pushWires (s : Sess) (ws : List Wire) : Sess :=
  { s with send := { buf := s.send.buf ++ ws, closed := false } }

/-- Sending a list of frames to a session whose queue is open and has room
for all of them appends exactly those frames to that session's queue and
touches nothing else. -/
theorem sendWires_ok (ws : List Wire) (h : Hub) (sid : Nat) (s : Sess)
    (hs : lookupKey sid h.sessions = some s)
    (hopen : s.send.closed = false)
    (hroom : s.send.buf.length + ws.length ≤ sendCap) :
    sendWires h sid ws = .ok (withSess h sid (pushWires s ws)) := by
  induction ws generalizing h s with
  | nil =>
    have hse : pushWires s [] = s := by
      obtain ⟨u, un, ⟨b, c⟩, sub, ty⟩ := s
      simp at hopen
      simp [pushWires, hopen]
    rw [sendWires, hse, withSess, upsert_eq_self _ _ _ hs]
  | cons w ws ih =>
    have hlt : s.send.buf.length < sendCap := by
      simp at hroom; omega
    have hsend : clientSend h sid w = .ok (withSess h sid (pushWires s [w])) := by
      rw [clientSend, hs]
      simp [chanTrySend, hopen, hlt, withSess, pushWires]
    rw [sendWires, hsend]
    show sendWires _ sid ws = _
    rw [ih _ _ (by rw [withSess]; exact lookupKey_upsert_self _ _ _) rfl
      (by simp [pushWires] at hroom ⊢; omega)]
    simp [withSess, pushWires, upsert_upsert]

/-! ## Claim theorems: concrete refutations -/

/-- Claim C1: a `send_message` from session A in a chat with N live
subscribers including A puts exactly one `message` envelope on A.  In the
code `Hub.BroadcastToChat` enqueues the fan-out with `excludeID: uuid.Nil`,
so the chat broadcast does not exclude the originator: in the two-member
run, alice's queue ends with two `message` envelopes (echo plus broadcast
copy) while bob's has one. -/
theorem c1_originator_gets_two_copies :
    ((okHub sendMessageRun).bind (fun h => lookupKey 1 h.sessions)).map
        (fun s => countMessages s.send.buf) = some 2 ∧
      ((okHub sendMessageRun).bind (fun h => lookupKey 2 h.sessions)).map
        (fun s => countMessages s.send.buf) = some 1 := by
  decide

/-- Claim C2: the hub loop never crashes.  In the code a duplicate login
closes the evicted session's queue but leaves it in `clientsByChat`; the
next chat broadcast sends on the closed channel, which panics inside the
hub loop. -/
theorem c2_hub_loop_panics_after_eviction :
    panicOf duplicateLoginThenChatBroadcast = some .sendOnClosed := by
  decide

/-- Claim C3 (counterexample): after the duplicate login, the claim says
the prior session was removed from every `subscribers_by_chat` set; in the
resulting state the evicted session 1 is still the subscriber entry of
chat 7 (while its queue is closed and session 2 is installed for user 1). -/
theorem c3_prior_session_left_in_chat_map :
    ((okHub duplicateLoginState).bind
        (fun h => lookupKey 7 h.clientsByChat)) = some [(1, 1)] ∧
      ((okHub duplicateLoginState).bind (fun h => lookupKey 1 h.clients)) = some 2 ∧
      ((okHub duplicateLoginState).bind (fun h => lookupKey 1 h.sessions)).map
        (fun s => s.send.closed) = some true := by
  decide

/-- Claim C4: deregistering a session that is no longer the one registered
for its user must leave the registered session in place.  In the code
`unregisterClient` only checks that *some* session is registered for the
user id, so deregistering the evicted session 1 deletes user 1's entry
(which holds session 2) and closes session 1's already-closed queue: the
hub loop panics. -/
theorem c4_deregister_evicted_panics :
    panicOf deregisterEvictedRun = some .closeOfClosed := by
  decide

set_option maxRecDepth 100000 in
/-- Claim C5 (counterexample): the claim says an overflow eviction removes
the session from both `sessions_by_user` and every `subscribers_by_chat`
set.  After alice's queue is filled to capacity (256) and one more chat
broadcast arrives, she is closed and removed from `clients` but remains
the subscriber entry of chat 7. -/
theorem c5_overflow_leaves_chat_map :
    ((okHub overflowEvictionRun).bind
        (fun h => lookupKey 7 h.clientsByChat)) = some [(1, 1)] ∧
      ((okHub overflowEvictionRun).map (fun h => lookupKey 1 h.clients)) = some none ∧
      ((okHub overflowEvictionRun).bind (fun h => lookupKey 1 h.sessions)).map
        (fun s => (s.send.closed, s.send.buf.length)) = some (true, 256) := by
  decide

/-- Claim C6: exactly one `user_offline` broadcast per transition to having
no live session.  In the code `Client.Read`'s deferred cleanup broadcasts
`user_offline` unconditionally in addition to the one `unregisterClient`
emits, so a single disconnect of alice delivers two `user_offline`
envelopes to bob. -/
theorem c6_two_offline_broadcasts_per_disconnect :
    ((okHub disconnectRun).bind (fun h => lookupKey 2 h.sessions)).map
        (fun s => countUserOffline s.send.buf) = some 2 := by
  decide

/-- Claim C7: dispatching a syntactically valid envelope never crashes the
reader loop.  The reader decodes `payload` into `interface{}` (a generic
value), while every handler starts with the unchecked type assertion
`msg.Payload.(json.RawMessage)`: dispatching any decoded `send_message`
frame panics on the reader task. -/
theorem c7_dispatch_panics_on_type_assertion :
    panicOf dispatchDecodedRun = some .typeAssert := by
  decide

/-- Claim C9 (counterexample): two `subscribe_chat` calls for the same
(session, chat) must leave state identical to one call, including the
outbound queue.  With one message in the chat history, the second call
replays it again: one envelope queued after one call, two after two. -/
theorem c9_double_subscribe_replays_again :
    ((okHub subscribeOnceRun).bind (fun h => lookupKey 1 h.sessions)).map
        (fun s => s.send.buf.length) = some 1 ∧
      ((okHub subscribeTwiceRun).bind (fun h => lookupKey 1 h.sessions)).map
        (fun s => s.send.buf.length) = some 2 := by
  decide

/-- The hub state produced by a successful `SubscribeToChat` of session
`sid` (object `s`) to chat `cid`: the subscriber map gains the session, the
session gains the chat and the replayed window on its queue. -/
def subscribeOutcome (db : DB) (h : Hub) (sid cid : Nat) (s : Sess) : Hub :=
  { h with
    clientsByChat := upsert cid
      (upsert s.userID sid ((lookupKey cid h.clientsByChat).getD []))
      h.clientsByChat,
    sessions := upsert sid
      (pushWires { s with subscribed := insertSub cid s.subscribed }
        ((GetChatMessages db cid 50 0).map replayWire)) h.sessions }

/-- A successful subscribe computes exactly `subscribeOutcome`. -/
theorem SubscribeToChat_ok (db : DB) (h : Hub) (sid cid : Nat) (s : Sess)
    (hs : lookupKey sid h.sessions = some s)
    (hopen : s.send.closed = false)
    (hauth : GetChat db cid s.userID = true)
    (hroom : s.send.buf.length + (GetChatMessages db cid 50 0).length ≤ sendCap) :
    SubscribeToChat db h sid cid = .ok (true, subscribeOutcome db h sid cid s) := by
  rw [SubscribeToChat, hs]
  simp only [hauth, Bool.not_true, Bool.false_eq_true, if_false]
  set s1 : Sess := { s with subscribed := insertSub cid s.subscribed } with hs1
  set h1 : Hub := { h with
    clientsByChat := upsert cid
      (upsert s.userID sid ((lookupKey cid h.clientsByChat).getD []))
      h.clientsByChat,
    sessions := upsert sid s1 h.sessions } with hh1
  have hs1l : lookupKey sid h1.sessions = some s1 := lookupKey_upsert_self _ _ _
  have hroom1 : s1.send.buf.length +
      ((GetChatMessages db cid 50 0).map replayWire).length ≤ sendCap := by
    simpa using hroom
  have hrepl := sendWires_ok ((GetChatMessages db cid 50 0).map replayWire)
    h1 sid s1 hs1l hopen hroom1
  have hfinal : withSess h1 sid
      (pushWires s1 ((GetChatMessages db cid 50 0).map replayWire)) =
      subscribeOutcome db h sid cid s := by
    rw [withSess, subscribeOutcome, hh1, hs1]
    simp [upsert_upsert]
  rw [sendUnreadMessages, hrepl, hfinal]
  rfl

theorem insertSub_idem (cid : Nat) (l : List Nat) :
    insertSub cid (insertSub cid l) = insertSub cid l := by
  by_cases hmem : cid ∈ l
  · simp [insertSub, hmem]
  · simp [insertSub, hmem]

theorem filter_ne_idem (cid : Nat) (l : List Nat) :
    (l.filter (· ≠ cid)).filter (· ≠ cid) = l.filter (· ≠ cid) := by
  induction l with
  | nil => rfl
  | cons x xs ih =>
    by_cases hx : x = cid
    · simp [List.filter_cons, hx, ih]
    · simp [List.filter_cons, hx, ih]

/-- Unsubscribing twice is exactly unsubscribing once, for every hub
state. -/
theorem unsubscribeFromChat_idem (h : Hub) (sid cid : Nat) :
    unsubscribeFromChat (unsubscribeFromChat h sid cid) sid cid =
      unsubscribeFromChat h sid cid := by
  cases hses : lookupKey sid h.sessions with
  | none => simp [unsubscribeFromChat, hses]
  | some s =>
    set s2 : Sess := { s with subscribed := s.subscribed.filter (· ≠ cid),
                              typing := s.typing.filter (· ≠ cid) } with hs2
    have hs2idem : { s2 with subscribed := s2.subscribed.filter (· ≠ cid),
                             typing := s2.typing.filter (· ≠ cid) } = s2 := by
      rw [hs2]
      simp [filter_ne_idem]
    cases hcbc : lookupKey cid h.clientsByChat with
    | none =>
      have h1 : unsubscribeFromChat h sid cid =
          { h with sessions := upsert sid s2 h.sessions } := by
        simp only [unsubscribeFromChat, hses, hcbc]
      rw [h1]
      simp only [unsubscribeFromChat, lookupKey_upsert_self, hcbc, hs2idem,
        upsert_upsert]
    | some m =>
      by_cases hemp : (eraseKey s.userID m).isEmpty
      · have h1 : unsubscribeFromChat h sid cid =
            { h with clientsByChat := eraseKey cid h.clientsByChat,
                     sessions := upsert sid s2 h.sessions } := by
          simp only [unsubscribeFromChat, hses, hcbc, hemp, if_true]
        rw [h1]
        simp only [unsubscribeFromChat, lookupKey_upsert_self,
          lookupKey_eraseKey_self, hs2idem, upsert_upsert]
      · rw [Bool.not_eq_true] at hemp
        have h1 : unsubscribeFromChat h sid cid =
            { h with clientsByChat := upsert cid (eraseKey s.userID m) h.clientsByChat,
                     sessions := upsert sid s2 h.sessions } := by
          simp only [unsubscribeFromChat, hses, hcbc, hemp, Bool.false_eq_true,
            if_false]
        rw [h1]
        simp only [unsubscribeFromChat, lookupKey_upsert_self, hs2idem,
          upsert_upsert, eraseKey_eraseKey, hemp, Bool.false_eq_true, if_false]

/-! ## Claim theorems: general properties -/

/-- Claim C8: after successful authorization, `subscribe(session, chat)`
enqueues to that session — and to no other session — the last 50
non-deleted messages of the chat as `message` frames, oldest first.
Hypotheses: the session exists with an open queue that has room for the
window, authorization succeeds, and the chat's stored non-deleted messages
are in strictly ascending creation order (the repository's `created_at`
total order). -/
theorem c8_subscribe_replays_history (db : DB) (h : Hub) (sid cid : Nat) (s : Sess)
    (hs : lookupKey sid h.sessions = some s)
    (hopen : s.send.closed = false)
    (hauth : GetChat db cid s.userID = true)
    (hroom : s.send.buf.length + (GetChatMessages db cid 50 0).length ≤ sendCap)
    (hchron : (chatNonDeleted db cid).Pairwise
      (fun a b => a.createdAt < b.createdAt)) :
    ∃ h', SubscribeToChat db h sid cid = .ok (true, h') ∧
      lookupKey sid h'.sessions = some (pushWires
        { s with subscribed := insertSub cid s.subscribed }
        (((chatNonDeleted db cid).rtake 50).map replayWire)) ∧
      ∀ sid', sid' ≠ sid →
        lookupKey sid' h'.sessions = lookupKey sid' h.sessions := by
  have hwin : GetChatMessages db cid 50 0 = (chatNonDeleted db cid).rtake 50 :=
    GetChatMessages_eq_rtake db cid 50 hchron
  refine ⟨subscribeOutcome db h sid cid s,
    SubscribeToChat_ok db h sid cid s hs hopen hauth hroom, ?_, ?_⟩
  · simp only [subscribeOutcome]
    rw [lookupKey_upsert_self, hwin]
  · intro sid' hne
    simp only [subscribeOutcome]
    exact lookupKey_upsert_ne _ _ _ _ hne

/-- Extract the hub from a run known not to panic. -/
def hubOrEmpty : Except Panic Hub → Hub
  | .ok h => h
  | .error _ => mkHub

/-- Claim C8 witness: alice subscribes to chat 7 of `dbOneMessage`; the one
stored message is replayed onto her queue. -/
theorem c8_witness :
    ∃ h', SubscribeToChat dbOneMessage (newClient mkHub 1 1 "alice") 1 7 =
        .ok (true, h') ∧
      lookupKey 1 h'.sessions = some (pushWires
        { userID := 1, username := "alice", send := { buf := [], closed := false },
          subscribed := insertSub 7 [], typing := [] }
        (((chatNonDeleted dbOneMessage 7).rtake 50).map replayWire)) ∧
      ∀ sid', sid' ≠ 1 →
        lookupKey sid' h'.sessions =
          lookupKey sid' (newClient mkHub 1 1 "alice").sessions := by
  have := c8_subscribe_replays_history dbOneMessage (newClient mkHub 1 1 "alice") 1 7
    { userID := 1, username := "alice", send := { buf := [], closed := false },
      subscribed := [], typing := [] }
    (by decide) (by decide) (by decide) (by decide) (by decide)
  exact this

/-- Claim C3 (amended): registering a session while a prior session exists
for the same user closes the prior session's outbound queue and installs
the new session under the user id in `sessions_by_user`; the prior session
is NOT removed from the `subscribers_by_chat` sets, which are left
entirely unchanged. -/
theorem c3_amended_register_closes_and_replaces (h : Hub) (sid oldSid : Nat)
    (s olds : Sess)
    (hs : lookupKey sid h.sessions = some s)
    (hprior : lookupKey s.userID h.clients = some oldSid)
    (holds : lookupKey oldSid h.sessions = some olds)
    (hopen : olds.send.closed = false) :
    ∃ h', registerClient h sid = .ok h' ∧
      h'.clients = upsert s.userID sid h.clients ∧
      h'.clientsByChat = h.clientsByChat ∧
      lookupKey oldSid h'.sessions =
        some { olds with send := { olds.send with closed := true } } := by
  rw [registerClient, hs]
  simp only [hprior, holds, chanClose, hopen, Bool.false_eq_true, if_false,
    Except.map_ok]
  refine ⟨_, rfl, ?_, ?_, ?_⟩
  · rfl
  · rfl
  · simp only [broadcastUserOnline]
    exact lookupKey_upsert_self _ _ _

/-- Claim C3 amended witness: the duplicate-login scenario instantiates the
amended register behaviour. -/
theorem c3_amended_witness :
    ∃ h', registerClient (hubOrEmpty duplicateLoginState0) 2 = .ok h' ∧
      h'.clients = upsert 1 2 (hubOrEmpty duplicateLoginState0).clients ∧
      h'.clientsByChat = (hubOrEmpty duplicateLoginState0).clientsByChat ∧
      lookupKey 1 h'.sessions =
        some { userID := 1, username := "alice",
               send := { buf := [], closed := true },
               subscribed := [7], typing := [] } := by
  have := c3_amended_register_closes_and_replaces (hubOrEmpty duplicateLoginState0) 2 1
    { userID := 1, username := "alice", send := { buf := [], closed := false },
      subscribed := [], typing := [] }
    { userID := 1, username := "alice", send := { buf := [], closed := false },
      subscribed := [7], typing := [] }
    (by decide) (by decide) (by decide) (by decide)
  exact this

/-- Claim C5 (amended): during a fan-out, an eligible target session whose
(open) queue is full at enqueue time has its queue closed and its user id
removed from `sessions_by_user` only — it stays in every
`subscribers_by_chat` set; an eligible target whose queue has room
receives the serialized bytes. -/
theorem c5_amended_overflow_evicts_from_clients_only (h : Hub) (msg : BMsg)
    (uid sid : Nat) (s : Sess)
    (hs : lookupKey sid h.sessions = some s)
    (hopen : s.send.closed = false)
    (helig : msg.skipCheck = true ∨ s.userID ≠ msg.excludeID) :
    (s.send.buf.length = sendCap →
      ∃ h', broadcastStep msg h (uid, sid) = .ok h' ∧
        h'.clientsByChat = h.clientsByChat ∧
        h'.clients = eraseKey s.userID h.clients ∧
        lookupKey sid h'.sessions =
          some { s with send := { s.send with closed := true } }) ∧
    (s.send.buf.length < sendCap →
      ∃ h', broadcastStep msg h (uid, sid) = .ok h' ∧
        h'.clientsByChat = h.clientsByChat ∧
        h'.clients = h.clients ∧
        lookupKey sid h'.sessions = some (pushWires s [msg.message])) := by
  have hcond : (msg.skipCheck || decide ¬(s.userID = msg.excludeID)) = true := by
    rcases helig with h1 | h1
    · simp [h1]
    · simp [h1]
  constructor
  · intro hfull
    rw [broadcastStep]
    simp only [hs]
    rw [if_pos]
    · have : ¬ (s.send.buf.length < sendCap) := by omega
      simp only [chanTrySend, hopen, Bool.false_eq_true, if_false, this,
        chanClose, Except.map_ok]
      exact ⟨_, rfl, rfl, rfl, lookupKey_upsert_self _ _ _⟩
    · simpa using hcond
  · intro hlt
    rw [broadcastStep]
    simp only [hs]
    rw [if_pos]
    · simp only [chanTrySend, hopen, Bool.false_eq_true, if_false, hlt, if_pos]
      exact ⟨_, rfl, rfl, rfl, by rw [pushWires]; exact lookupKey_upsert_self _ _ _⟩
    · simpa using hcond

set_option maxRecDepth 100000 in
/-- Claim C5 amended witness: a target with a full queue of 256 frames is
closed and erased from `clients` but kept in `clientsByChat`; a fresh
target with an empty queue receives the frame. -/
theorem c5_amended_witness :
    (fullQueueSess.send.buf.length = sendCap →
      ∃ h', broadcastStep ⟨Wire.userOnline 9 "x", 9, true⟩ fullQueueHub (1, 1) = .ok h' ∧
        h'.clientsByChat = fullQueueHub.clientsByChat ∧
        h'.clients = eraseKey 1 fullQueueHub.clients ∧
        lookupKey 1 h'.sessions = some { fullQueueSess with
          send := { fullQueueSess.send with closed := true } }) ∧
    (fullQueueSess.send.buf.length < sendCap →
      ∃ h', broadcastStep ⟨Wire.userOnline 9 "x", 9, true⟩ fullQueueHub (1, 1) = .ok h' ∧
        h'.clientsByChat = fullQueueHub.clientsByChat ∧
        h'.clients = fullQueueHub.clients ∧
        lookupKey 1 h'.sessions = some (pushWires fullQueueSess [Wire.userOnline 9 "x"])) := by
  exact c5_amended_overflow_evicts_from_clients_only fullQueueHub
    ⟨Wire.userOnline 9 "x", 9, true⟩ 1 1 fullQueueSess
    (by decide) (by decide) (Or.inl (by decide))

/-- Claim C9 (amended): for a session with an open queue and enough room,
two `subscribe_chat` calls for the same (session, chat) leave
`sessions_by_user`, `subscribers_by_chat` and the session's subscription
set identical to one call, but the second call replays the history window
again, so the outbound queue gains the window twice (it differs from one
call whenever the window is non-empty); two `unsubscribe_chat` calls are
exactly equivalent to one, unconditionally. -/
theorem c9_amended_subscribe_almost_idempotent (db : DB) (h : Hub)
    (sid cid : Nat) (s : Sess)
    (hs : lookupKey sid h.sessions = some s)
    (hopen : s.send.closed = false)
    (hauth : GetChat db cid s.userID = true)
    (hroom : s.send.buf.length + (GetChatMessages db cid 50 0).length
      + (GetChatMessages db cid 50 0).length ≤ sendCap) :
    (∃ h1 h2, SubscribeToChat db h sid cid = .ok (true, h1) ∧
      SubscribeToChat db h1 sid cid = .ok (true, h2) ∧
      h2.clients = h1.clients ∧
      h2.clientsByChat = h1.clientsByChat ∧
      (lookupKey sid h2.sessions).map Sess.subscribed =
        (lookupKey sid h1.sessions).map Sess.subscribed ∧
      (lookupKey sid h1.sessions).map (fun t => t.send.buf) =
        some (s.send.buf ++ (GetChatMessages db cid 50 0).map replayWire) ∧
      (lookupKey sid h2.sessions).map (fun t => t.send.buf) =
        some (s.send.buf ++ (GetChatMessages db cid 50 0).map replayWire
          ++ (GetChatMessages db cid 50 0).map replayWire)) ∧
    (∀ g : Hub, ∀ sid' cid' : Nat,
      UnsubscribeFromChat (UnsubscribeFromChat g sid' cid') sid' cid' =
        UnsubscribeFromChat g sid' cid') := by
  constructor
  · have hsub1 : SubscribeToChat db h sid cid =
        .ok (true, subscribeOutcome db h sid cid s) :=
      SubscribeToChat_ok db h sid cid s hs hopen hauth (by omega)
    have hs1l : lookupKey sid (subscribeOutcome db h sid cid s).sessions =
        some (pushWires { s with subscribed := insertSub cid s.subscribed }
          ((GetChatMessages db cid 50 0).map replayWire)) := by
      simp only [subscribeOutcome]
      exact lookupKey_upsert_self _ _ _
    have hroom2 : (pushWires { s with subscribed := insertSub cid s.subscribed }
        ((GetChatMessages db cid 50 0).map replayWire)).send.buf.length +
        (GetChatMessages db cid 50 0).length ≤ sendCap := by
      simp only [pushWires, List.length_append, List.length_map]
      omega
    have hsub2 := SubscribeToChat_ok db (subscribeOutcome db h sid cid s) sid cid
      (pushWires { s with subscribed := insertSub cid s.subscribed }
        ((GetChatMessages db cid 50 0).map replayWire))
      hs1l rfl hauth hroom2
    refine ⟨_, _, hsub1, hsub2, rfl, ?_, ?_, ?_, ?_⟩
    · simp [subscribeOutcome, pushWires, lookupKey_upsert_self, upsert_upsert]
    · simp [subscribeOutcome, pushWires, lookupKey_upsert_self, insertSub_idem]
    · simp [subscribeOutcome, pushWires, lookupKey_upsert_self]
    · simp [subscribeOutcome, pushWires, lookupKey_upsert_self]
  · intro g sid' cid'
    exact unsubscribeFromChat_idem g sid' cid'

/-- Claim C9 amended witness: the single-message chat instantiates the
amended behaviour at alice's fresh session. -/
theorem c9_amended_witness :
    (∃ h1 h2, SubscribeToChat dbOneMessage (newClient mkHub 1 1 "alice") 1 7 =
        .ok (true, h1) ∧
      SubscribeToChat dbOneMessage h1 1 7 = .ok (true, h2) ∧
      h2.clients = h1.clients ∧
      h2.clientsByChat = h1.clientsByChat ∧
      (lookupKey 1 h2.sessions).map Sess.subscribed =
        (lookupKey 1 h1.sessions).map Sess.subscribed ∧
      (lookupKey 1 h1.sessions).map (fun t => t.send.buf) =
        some ([] ++ (GetChatMessages dbOneMessage 7 50 0).map replayWire) ∧
      (lookupKey 1 h2.sessions).map (fun t => t.send.buf) =
        some ([] ++ (GetChatMessages dbOneMessage 7 50 0).map replayWire
          ++ (GetChatMessages dbOneMessage 7 50 0).map replayWire)) ∧
    (∀ g : Hub, ∀ sid' cid' : Nat,
      UnsubscribeFromChat (UnsubscribeFromChat g sid' cid') sid' cid' =
        UnsubscribeFromChat g sid' cid') := by
  exact c9_amended_subscribe_almost_idempotent dbOneMessage
    (newClient mkHub 1 1 "alice") 1 7
    { userID := 1, username := "alice", send := { buf := [], closed := false },
      subscribed := [], typing := [] }
    (by decide) (by decide) (by decide) (by decide)

/-- Membership in the read-mark fold of `MarkChatAsRead`: a pair is present
afterwards iff it was present before or it is `(m.id, uid)` for one of the
folded messages. -/
theorem mem_foldl_readMarks (msgs : List Message) (rs : List (Nat × Nat))
    (uid x u : Nat) :
    ((x, u) ∈ msgs.foldl
        (fun rs m => if (m.id, uid) ∈ rs then rs else rs ++ [(m.id, uid)]) rs) ↔
      ((x, u) ∈ rs ∨ (u = uid ∧ ∃ m, m ∈ msgs ∧ m.id = x)) := by
  induction msgs generalizing rs with
  | nil => simp
  | cons m ms ih =>
    rw [List.foldl_cons, ih]
    by_cases hin : (m.id, uid) ∈ rs
    · rw [if_pos hin]
      constructor
      · rintro (hr | ⟨hu, mm, hmm, hid⟩)
        · exact Or.inl hr
        · exact Or.inr ⟨hu, mm, List.mem_cons_of_mem m hmm, hid⟩
      · rintro (hr | ⟨hu, mm, hmm, hid⟩)
        · exact Or.inl hr
        · rcases List.mem_cons.mp hmm with hmm | hmm
          · subst hmm
            subst hu
            subst hid
            exact Or.inl hin
          · exact Or.inr ⟨hu, mm, hmm, hid⟩
    · rw [if_neg hin]
      constructor
      · rintro (hr | ⟨hu, mm, hmm, hid⟩)
        · rcases List.mem_append.mp hr with hr | hr
          · exact Or.inl hr
          · rcases List.mem_singleton.mp hr with heq
            exact Or.inr ⟨congrArg Prod.snd heq,
              m, List.mem_cons_self m ms, (congrArg Prod.fst heq).symm⟩
        · exact Or.inr ⟨hu, mm, List.mem_cons_of_mem m hmm, hid⟩
      · rintro (hr | ⟨hu, mm, hmm, hid⟩)
        · exact Or.inl (List.mem_append_left _ hr)
        · rcases List.mem_cons.mp hmm with hmm | hmm
          · subst hmm
            subst hu
            subst hid
            exact Or.inl (List.mem_append_right _ (List.mem_singleton_self _))
          · exact Or.inr ⟨hu, mm, hmm, hid⟩

/-- Read-mark membership after `MarkChatAsRead db cid uid`. -/
theorem mem_MarkChatAsRead (db : DB) (cid uid x u : Nat) :
    ((x, u) ∈ (MarkChatAsRead db cid uid).reads ↔
      ((x, u) ∈ db.reads ∨ (u = uid ∧ ∃ m, m ∈ db.messages ∧ m.chatID = cid ∧
        m.senderID ≠ uid ∧ m.isDeleted = false ∧ m.id = x))) := by
  simp only [MarkChatAsRead]
  rw [mem_foldl_readMarks]
  constructor
  · rintro (hr | ⟨hu, mm, hmm, hid⟩)
    · exact Or.inl hr
    · rcases List.mem_filter.mp hmm with ⟨hmem, hpred⟩
      simp only [Bool.and_eq_true, decide_eq_true_eq, Bool.not_eq_true'] at hpred
      exact Or.inr ⟨hu, mm, hmem, hpred.1.1, hpred.1.2, hpred.2, hid⟩
  · rintro (hr | ⟨hu, mm, hmem, hchat, hsender, hdel, hid⟩)
    · exact Or.inl hr
    · refine Or.inr ⟨hu, mm, List.mem_filter.mpr ⟨hmem, ?_⟩, hid⟩
      simp only [Bool.and_eq_true, decide_eq_true_eq, Bool.not_eq_true']
      exact ⟨⟨hchat, hsender⟩, hdel⟩

/-- Reduction of a do-bind over a successful `Except` value. -/
theorem Except_ok_bind {α β : Type} (a : α) (f : α → Except Panic β) :
    (do let r ← Except.ok a; f r : Except Panic β) = f a := rfl

/-- Claim C10: the persistence effect of a `read_message` intent for
message `m` by user `u` is chat-wide: it creates read marks for every
non-deleted message sent by users other than `u` in `m`'s entire chat, and
creates no read mark at all when `u` is `m`'s sender; in both cases (and
also when the discarded persistence call fails) a `message_read` envelope
carrying `m`'s id is broadcast to the chat. -/
theorem c10_read_message_marks_chatwide (db : DB) (h : Hub) (sid mid : Nat)
    (dbFail : Bool) (s : Sess) (m : Message)
    (hs : lookupKey sid h.sessions = some s)
    (hm : GetByID db mid = some m) :
    ∃ db', handleReadMessage db h sid (.raw (.readMsg (some mid))) dbFail =
        .ok (db', BroadcastToChat h m.chatID (Wire.messageRead mid s.userID) false) ∧
      db'.messages = db.messages ∧
      (m.senderID = s.userID → db' = db) ∧
      (dbFail = true → db' = db) ∧
      (m.senderID ≠ s.userID → dbFail = false → ∀ x u,
        ((x, u) ∈ db'.reads ↔ (x, u) ∈ db.reads ∨
          (u = s.userID ∧ ∃ m', m' ∈ db.messages ∧ m'.chatID = m.chatID ∧
            m'.senderID ≠ s.userID ∧ m'.isDeleted = false ∧ m'.id = x))) := by
  simp only [handleReadMessage, assertRaw, Except_ok_bind, hs, hm, MarkAsRead]
  by_cases hsender : m.senderID = s.userID
  · simp only [if_pos hsender]
    exact ⟨db, rfl, rfl, fun _ => rfl, fun _ => rfl,
      fun hne _ => absurd hsender hne⟩
  · simp only [if_neg hsender]
    cases dbFail with
    | true =>
      simp only [if_pos rfl]
      exact ⟨db, rfl, rfl, fun heq => absurd heq hsender, fun _ => rfl,
        fun _ hff => absurd hff (by simp)⟩
    | false =>
      simp only [Bool.false_eq_true, if_false]
      refine ⟨MarkChatAsRead db m.chatID s.userID, rfl, rfl,
        fun heq => absurd heq hsender, fun htt => absurd htt (by simp),
        fun _ _ x u => ?_⟩
      exact mem_MarkChatAsRead db m.chatID s.userID x u

/-- Claim C10 witness: alice reads message 50 of `dbOneMessage` (sent by
user 2): a mark `(50, 1)` is created and `message_read` is broadcast. -/
theorem c10_witness :
    ∃ db', handleReadMessage dbOneMessage (newClient mkHub 1 1 "alice") 1
        (.raw (.readMsg (some 50))) false =
        .ok (db', BroadcastToChat (newClient mkHub 1 1 "alice") mSolo.chatID
          (Wire.messageRead 50 1) false) ∧
      db'.messages = dbOneMessage.messages ∧
      (mSolo.senderID = 1 → db' = dbOneMessage) ∧
      (false = true → db' = dbOneMessage) ∧
      (mSolo.senderID ≠ 1 → false = false → ∀ x u,
        ((x, u) ∈ db'.reads ↔ (x, u) ∈ dbOneMessage.reads ∨
          (u = 1 ∧ ∃ m', m' ∈ dbOneMessage.messages ∧ m'.chatID = mSolo.chatID ∧
            m'.senderID ≠ 1 ∧ m'.isDeleted = false ∧ m'.id = x))) := by
  exact c10_read_message_marks_chatwide dbOneMessage (newClient mkHub 1 1 "alice")
    1 50 false
    { userID := 1, username := "alice", send := { buf := [], closed := false },
      subscribed := [], typing := [] }
    mSolo (by decide) (by decide)

end Dildogram

